import Mathlib

/-!
Shallow embedding of the `web-to-pdf` service (`src/app.js`) and proofs about
the claims of its specification.

Strings from the JavaScript side are modelled as `List Char` (for the character
pipeline of `sanitizeFilename`) or Lean `String` (for route-level data); the
external collaborators (the WHATWG URL parser of Node's `url` module and the
puppeteer browser engine) are modelled as explicit oracles, since their code is
not part of this repository.
-/

namespace WebToPdf

/-! ## Filename sanitizer (`sanitizeFilename`, src/app.js lines 33-39)

JavaScript source:
  url.replace(/https?:\/\//, '')      -- removes the FIRST match, anywhere
     .replace(/[^a-z0-9]/gi, '_')     -- case-insensitive, global
     .toLowerCase()
     .substring(0, 50)
-/

/-- Does `pre` occur at the head of `l`? (character-by-character match). -/
def startsWithL : List Char → List Char → Bool
  | [], _ => true
  | _ :: _, [] => false
  | a :: as, b :: bs => a == b && startsWithL as bs

/-- The characters of the literal `http://`. -/
def httpScheme : List Char := ['h', 't', 't', 'p', ':', '/', '/']

/-- The characters of the literal `https://`. -/
def httpsScheme : List Char := ['h', 't', 't', 'p', 's', ':', '/', '/']

/-- Length of the match of the regex `https?:\/\/` at the head of `l`, if any.
The greedy optional `s?` means a `https://` match is preferred over `http://`;
the two cannot both match at one position (they differ at index 4). -/
def schemeAt (l : List Char) : Option Nat :=
  if startsWithL httpsScheme l then some 8
  else if startsWithL httpScheme l then some 7
  else none

/-- `String.prototype.replace` with the non-global regex `/https?:\/\//` and
empty replacement: remove the leftmost match, scanning left to right; if no
position matches, the string is unchanged. -/
def stripFirstScheme : List Char → List Char
  | [] => []
  | c :: cs =>
    match schemeAt (c :: cs) with
    | some n => (c :: cs).drop n
    | none => c :: stripFirstScheme cs

/-- The character class `[a-z0-9]` with the `i` flag: ASCII letters and digits. -/
def isAlnumCh (c : Char) : Bool :=
  (97 ≤ c.toNat && c.toNat ≤ 122) || (65 ≤ c.toNat && c.toNat ≤ 90) ||
    (48 ≤ c.toNat && c.toNat ≤ 57)

/-- One step of `.replace(/[^a-z0-9]/gi, '_')`: any character outside the class
becomes an underscore. -/
def sanitizeChar (c : Char) : Char :=
  if isAlnumCh c then c else '_'

/-- `sanitizeFilename` from src/app.js: strip the first occurrence of the
scheme pattern, replace every non-alphanumeric character by `_`, lowercase
(`Char.toLower` is exactly the ASCII mapping; at this stage of the pipeline
every character is ASCII alphanumeric or `_`), and keep the first 50
characters (`substring(0, 50)`). -/
def sanitizeFilename (s : List Char) : List Char :=
  ((((stripFirstScheme s).map sanitizeChar).map Char.toLower).take 50)

/-- `sanitizeFilename` on Lean strings. -/
def sanStr (s : String) : String :=
  String.mk (sanitizeFilename s.toList)

/-- Strip a scheme only when it stands at the very beginning of the string. -/
def stripLeadingScheme (l : List Char) : List Char :=
  match schemeAt l with
  | some n => l.drop n
  | none => l

/-- The four-step algorithm exactly as the specification words it (section 4.2):
strip a LEADING `http://` or `https://` scheme, replace every character outside
`[a-zA-Z0-9]` with an underscore, lowercase, truncate to 50 characters. -/
def sanitizeFilenameSpec (s : List Char) : List Char :=
  ((((stripLeadingScheme s).map sanitizeChar).map Char.toLower).take 50)

/-- No position of `l` matches the scheme pattern. -/
def schemeFree : List Char → Bool
  | [] => true
  | c :: cs => (schemeAt (c :: cs)).isNone && schemeFree cs

/-- The output character class `[a-z0-9_]` of the sanitizer. -/
def goodChar (c : Char) : Bool :=
  (97 ≤ c.toNat && c.toNat ≤ 122) || (48 ≤ c.toNat && c.toNat ≤ 57) ||
    (c.toNat == 95)

/-- Substring test: does `needle` occur contiguously inside `hay`? -/
def hasSub (needle : List Char) : List Char → Bool
  | [] => startsWithL needle []
  | c :: cs => startsWithL needle (c :: cs) || hasSub needle cs

example : sanitizeFilename ("https://Example.com/Path?q=1".toList) =
    "example_com_path_q_1".toList := by decide

example : sanitizeFilename ("ahttp://b".toList) = "ab".toList := by decide

example : sanitizeFilenameSpec ("ahttp://b".toList) = "ahttp___b".toList := by decide

/-! ## JSON-like values and PDF option mappings -/

/-- A JSON-ish value as it appears in this program: every nested object in the
source (the `margin` object, the 400-response `example` object) has only string
values, so nested objects are flattened to string-valued association lists. -/
inductive JVal where
  | str : String → JVal
  | bool : Bool → JVal
  | obj : List (String × String) → JVal
deriving DecidableEq

/-- A JavaScript options object, viewed as a partial mapping from key to value
(own enumerable properties). -/
def PdfOpts : Type := String → Option JVal

/-- The empty object literal used as the default of the `options` parameter of
`generatePDF` (`options = \x7b\x7d`). -/
def emptyOpts : PdfOpts := fun _ => none

/-- The `pdfOptions` defaults of `generatePDF` (src/app.js lines 75-86). -/
def defaultPdfOptions : PdfOpts := fun k =>
  if k = "format" then some (JVal.str "A4")
  else if k = "printBackground" then some (JVal.bool true)
  else if k = "margin" then
    some (JVal.obj [("top", "20px"), ("right", "20px"), ("bottom", "20px"), ("left", "20px")])
  else if k = "displayHeaderFooter" then some (JVal.bool true)
  else if k = "headerTemplate" then
    some (JVal.str "<div style=\"font-size: 10px; margin: auto;\"></div>")
  else if k = "footerTemplate" then
    some (JVal.str "<div style=\"font-size: 10px; margin: auto; color: #666;\"><span class=\"pageNumber\"></span> / <span class=\"totalPages\"></span></div>")
  else none

/-- The object spread of src/app.js line 87: every caller-supplied key
overrides the default of the same key, unspecified keys keep their default,
keys unknown to the defaults pass through unchanged. -/
def mergeOptions (caller : PdfOpts) : PdfOpts := fun k =>
  match caller k with
  | some v => some v
  | none => defaultPdfOptions k

/-! ## Render engine oracle and `generatePDF` (src/app.js lines 42-102)

The puppeteer engine is external to this repository; it is modelled as an
oracle giving the outcome of each awaited engine step of `generatePDF`.
`browser.close()` is modelled as infallible (the claims under study enumerate
launch, navigation, settle-wait and export as the failure sources). -/

/-- Outcome of each engine step performed by `generatePDF`, in source order. -/
structure EngineBehavior where
  launch : Except String Unit
  newPage : Except String Unit
  setViewport : Except String Unit
  setUserAgent : Except String Unit
  goto : String → Except String Unit
  waitSettle : Except String Unit
  pdfExport : PdfOpts → Except String (List Nat)

/-- Outcome of the `try` block of `generatePDF`: on success, the PDF bytes, the
number of `browser.close()` calls already performed inside the block, and the
options that were handed to `page.pdf`; on an exception, the error message,
whether the `browser` variable had been assigned, the close calls performed so
far, and the export options if the export call was reached. -/
inductive TryOutcome where
  | success : List Nat → Nat → Option PdfOpts → TryOutcome
  | caught : String → Bool → Nat → Option PdfOpts → TryOutcome

/-- The `try` block of `generatePDF`, step by step: launch, newPage,
setViewport, setUserAgent, goto (networkidle2, 30s timeout), waitForTimeout
(2s), build `pdfOptions` by spreading the caller options over the defaults,
`page.pdf(pdfOptions)`, then `await browser.close()` and return. -/
def tryBody (eng : EngineBehavior) (url : String) (options : PdfOpts) : TryOutcome :=
  match eng.launch with
  | .error e => .caught e false 0 none
  | .ok _ =>
    match eng.newPage with
    | .error e => .caught e true 0 none
    | .ok _ =>
      match eng.setViewport with
      | .error e => .caught e true 0 none
      | .ok _ =>
        match eng.setUserAgent with
        | .error e => .caught e true 0 none
        | .ok _ =>
          match eng.goto url with
          | .error e => .caught e true 0 none
          | .ok _ =>
            match eng.waitSettle with
            | .error e => .caught e true 0 none
            | .ok _ =>
              match eng.pdfExport (mergeOptions options) with
              | .error e => .caught e true 0 (some (mergeOptions options))
              | .ok pdf => .success pdf 1 (some (mergeOptions options))

/-- Observable outcome of one `generatePDF` call: the returned bytes or the
propagated error, the total number of `browser.close()` calls, and the options
passed to the export step (if it was reached). -/
structure GenResult where
  result : Except String (List Nat)
  closes : Nat
  exportOptions : Option PdfOpts

/-- `generatePDF(url, options)`: run the `try` block; on an exception, the
`catch` block closes the browser exactly when the `browser` variable was
assigned, then rethrows the original error. -/
def generatePDF (eng : EngineBehavior) (url : String) (options : PdfOpts) : GenResult :=
  match tryBody eng url options with
  | .success pdf closes xo => ⟨.ok pdf, closes, xo⟩
  | .caught e browserSet closes xo =>
    ⟨.error e, closes + (if browserSet then 1 else 0), xo⟩

/-! ## URL validator (`isValidUrl`, src/app.js lines 23-30)

`new URL(string)` belongs to Node's WHATWG URL implementation, which is not
part of this repository; it is modelled as an oracle `parse` returning either
a successful parse or the thrown `TypeError` message. -/

/-- `isValidUrl`: `try` to construct a URL and return `true`; any thrown parse
failure is caught and mapped to `false`. -/
def isValidUrl (parse : String → Except String Unit) (s : String) : Bool :=
  match parse s with
  | .ok _ => true
  | .error _ => false

/-! ## HTTP endpoint layer (src/app.js lines 124-199) -/

/-- A response body: JSON object or binary PDF bytes. -/
inductive RespBody where
  | json : List (String × JVal) → RespBody
  | pdfBytes : List Nat → RespBody
deriving DecidableEq

/-- An HTTP response: status, the headers set explicitly by the handler, body. -/
structure Response where
  status : Nat
  headers : List (String × String)
  body : RespBody
deriving DecidableEq

/-- Result of running a route handler: the response plus the trace of
`generatePDF` invocations (url and caller options of each). An empty trace
means the render adapter was never invoked, hence no browser session was
acquired. -/
structure HandlerOut where
  resp : Response
  adapterCalls : List (String × PdfOpts)

/-- The 400 body of the POST route when `url` is falsy (lines 129-133). -/
def postMissingUrlBody : List (String × JVal) :=
  [("error", JVal.str "URL is required"),
   ("example", JVal.obj [("url", "https://example.com"), ("filename", "optional-name.pdf")])]

/-- The 400 body of the GET route when `url` is falsy (lines 168-171). -/
def getMissingUrlBody : List (String × JVal) :=
  [("error", JVal.str "URL parameter is required"),
   ("example", JVal.str "/generate-pdf?url=https://example.com&filename=optional-name.pdf")]

/-- The 400 body for a present but unparseable url (lines 136 and 175). -/
def invalidUrlBody : List (String × JVal) :=
  [("error", JVal.str "Invalid URL format")]

/-- The 500 body built in the catch blocks (lines 154-158 and 193-197). -/
def renderFailureBody (msg now : String) : List (String × JVal) :=
  [("error", JVal.str "Failed to generate PDF"),
   ("message", JVal.str msg),
   ("timestamp", JVal.str now)]

/-- The `Content-Disposition` value: the resolved name is interpolated into the
template literal verbatim, with no escaping. -/
def contentDispositionValue (name : String) : String :=
  "attachment; filename=\"" ++ name ++ "\""

/-- The resolved download filename (lines 142 and 181):
`filename || sanitizeFilename(url) + ".pdf"` — a falsy (empty) caller filename
falls back to the sanitized url. -/
def resolveName (filename : Option String) (url : String) : String :=
  match filename with
  | some f => if f = "" then sanStr url ++ ".pdf" else f
  | none => sanStr url ++ ".pdf"

/-- The 200 response of a successful generation (lines 144-150 and 183-189). -/
def pdfSuccessResponse (pdf : List Nat) (name : String) : Response :=
  ⟨200,
   [("Content-Type", "application/pdf"),
    ("Content-Disposition", contentDispositionValue name),
    ("Content-Length", Nat.repr pdf.length)],
   RespBody.pdfBytes pdf⟩

/-- The destructuring default `options = \x7b\x7d` of the POST body. -/
def effOptions (optionsField : Option PdfOpts) : PdfOpts :=
  match optionsField with
  | some o => o
  | none => emptyOpts

/-- `POST /generate-pdf` (lines 124-160), after destructuring
`\x7b url, filename, options = \x7b\x7d \x7d` from the JSON body: falsy url →
400; invalid url → 400; otherwise call `generatePDF(url, options)` and either
send the PDF with its headers or catch the error into a 500 JSON body. -/
def handlePost (parse : String → Except String Unit) (eng : EngineBehavior) (now : String)
    (url filename : Option String) (optionsField : Option PdfOpts) : HandlerOut :=
  match url with
  | none => ⟨⟨400, [], RespBody.json postMissingUrlBody⟩, []⟩
  | some u =>
    if u = "" then ⟨⟨400, [], RespBody.json postMissingUrlBody⟩, []⟩
    else if isValidUrl parse u then
      match (generatePDF eng u (effOptions optionsField)).result with
      | .ok pdf =>
        ⟨pdfSuccessResponse pdf (resolveName filename u), [(u, effOptions optionsField)]⟩
      | .error e =>
        ⟨⟨500, [], RespBody.json (renderFailureBody e now)⟩, [(u, effOptions optionsField)]⟩
    else ⟨⟨400, [], RespBody.json invalidUrlBody⟩, []⟩

/-- Core of `GET /generate-pdf` (lines 163-199) on the destructured query
fields `url` and `filename`: identical to the POST route except for the
missing-url body and that `generatePDF(url)` is called without caller options,
so the defaulted empty object is always passed. -/
def handleGetCore (parse : String → Except String Unit) (eng : EngineBehavior) (now : String)
    (url filename : Option String) : HandlerOut :=
  match url with
  | none => ⟨⟨400, [], RespBody.json getMissingUrlBody⟩, []⟩
  | some u =>
    if u = "" then ⟨⟨400, [], RespBody.json getMissingUrlBody⟩, []⟩
    else if isValidUrl parse u then
      match (generatePDF eng u emptyOpts).result with
      | .ok pdf => ⟨pdfSuccessResponse pdf (resolveName filename u), [(u, emptyOpts)]⟩
      | .error e => ⟨⟨500, [], RespBody.json (renderFailureBody e now)⟩, [(u, emptyOpts)]⟩
    else ⟨⟨400, [], RespBody.json invalidUrlBody⟩, []⟩

/-- `GET /generate-pdf`: destructure only `url` and `filename` from the query
object (`const \x7b url, filename \x7d = req.query`); every other query
parameter is ignored by construction of the destructuring. -/
def handleGet (parse : String → Except String Unit) (eng : EngineBehavior) (now : String)
    (q : String → Option String) : HandlerOut :=
  handleGetCore parse eng now (q "url") (q "filename")

/-- Decidable wellformedness of a `Content-Disposition` value of the shape
`attachment; filename="NAME"` with a quote-free NAME. -/
def wellQuotedCD (v : List Char) : Bool :=
  let pre := "attachment; filename=\"".toList
  startsWithL pre v &&
    (let r := v.drop pre.length
     !r.isEmpty && (r.getLast? == some ('"' : Char)) && !(r.dropLast.contains '"'))

/-! ## Concrete fixtures used by witnesses and counterexamples -/

/-- A parse oracle that accepts every string. -/
def pOk : String → Except String Unit := fun _ => Except.ok ()

/-- A parse oracle that rejects every string (the thrown TypeError message of
Node is `Invalid URL`). -/
def pBad : String → Except String Unit := fun _ => Except.error "Invalid URL"

/-- An engine behavior where every step succeeds; the exported PDF is the four
bytes of the magic `%PDF`. -/
def engAllOk : EngineBehavior :=
  ⟨Except.ok (), Except.ok (), Except.ok (), Except.ok (), fun _ => Except.ok (),
   Except.ok (), fun _ => Except.ok [37, 80, 68, 70]⟩

/-- An engine behavior where the launch itself fails. -/
def engLaunchFail : EngineBehavior :=
  ⟨Except.error "Failed to launch the browser process", Except.ok (), Except.ok (),
   Except.ok (), fun _ => Except.ok (), Except.ok (), fun _ => Except.ok [37]⟩

/-- An engine behavior where navigation times out. -/
def engNavFail : EngineBehavior :=
  ⟨Except.ok (), Except.ok (), Except.ok (), Except.ok (),
   fun _ => Except.error "Navigation timeout of 30000 ms exceeded",
   Except.ok (), fun _ => Except.ok [37]⟩

example : (generatePDF engNavFail "http://x" emptyOpts).closes = 1 := rfl

example : (generatePDF engLaunchFail "http://x" emptyOpts).closes = 0 := rfl

example : (generatePDF engAllOk "http://x" emptyOpts).closes = 1 := rfl

example : (handlePost pOk engAllOk "t0" (some "http://x") (some "") none).resp.headers =
    [("Content-Type", "application/pdf"),
     ("Content-Disposition", "attachment; filename=\"x.pdf\""),
     ("Content-Length", "4")] := rfl

/-! ## Lemmas about the sanitizer pipeline -/

lemma isAlnumCh_iff (c : Char) : isAlnumCh c = true ↔
    (97 ≤ c.toNat ∧ c.toNat ≤ 122) ∨ (65 ≤ c.toNat ∧ c.toNat ≤ 90) ∨
      (48 ≤ c.toNat ∧ c.toNat ≤ 57) := by
  simp [isAlnumCh]
  omega

lemma goodChar_iff (c : Char) : goodChar c = true ↔
    (97 ≤ c.toNat ∧ c.toNat ≤ 122) ∨ (48 ≤ c.toNat ∧ c.toNat ≤ 57) ∨ c.toNat = 95 := by
  simp [goodChar]
  omega

lemma goodChar_toLower_sanitizeChar (c : Char) :
    goodChar (Char.toLower (sanitizeChar c)) = true := by
  by_cases h : isAlnumCh c = true
  · have h' := (isAlnumCh_iff c).mp h
    unfold sanitizeChar
    rw [if_pos h]
    unfold Char.toLower
    by_cases hu : c.toNat ≥ 65 ∧ c.toNat ≤ 90
    · rw [if_pos hu]
      obtain ⟨h1, h2⟩ := hu
      generalize c.toNat = n at h1 h2
      interval_cases n <;> decide
    · rw [if_neg hu]
      rw [goodChar_iff]
      omega
  · unfold sanitizeChar
    rw [if_neg h]
    decide

lemma sanitizeFilename_chars_good (s : List Char) :
    ∀ c ∈ sanitizeFilename s, goodChar c = true := by
  intro c hc
  unfold sanitizeFilename at hc
  have hc' := List.take_subset 50 _ hc
  rw [List.mem_map] at hc'
  obtain ⟨b, hb, rfl⟩ := hc'
  rw [List.mem_map] at hb
  obtain ⟨a, _, rfl⟩ := hb
  exact goodChar_toLower_sanitizeChar a

lemma sanitizeFilename_length_le (s : List Char) : (sanitizeFilename s).length ≤ 50 := by
  unfold sanitizeFilename
  exact List.length_take_le 50 _

lemma startsWithL_sub (pre : List Char) : ∀ l, startsWithL pre l = true → ∀ c ∈ pre, c ∈ l := by
  induction pre with
  | nil =>
    intro l _ c hc
    simp at hc
  | cons a as ih =>
    intro l h c hc
    cases l with
    | nil => simp [startsWithL] at h
    | cons b bs =>
      simp only [startsWithL, Bool.and_eq_true, beq_iff_eq] at h
      obtain ⟨rfl, h2⟩ := h
      rcases List.mem_cons.mp hc with rfl | hmem
      · exact List.mem_cons_self _ _
      · exact List.mem_cons_of_mem _ (ih bs h2 c hmem)

lemma schemeAt_eq_none_of_good (l : List Char) (h : ∀ c ∈ l, goodChar c = true) :
    schemeAt l = none := by
  have hc : (':' : Char) ∉ l := by
    intro hmem
    exact absurd (h _ hmem) (by decide)
  have h1 : startsWithL httpsScheme l = false := by
    cases hx : startsWithL httpsScheme l
    · rfl
    · exact absurd (startsWithL_sub _ _ hx ':' (by decide)) hc
  have h2 : startsWithL httpScheme l = false := by
    cases hx : startsWithL httpScheme l
    · rfl
    · exact absurd (startsWithL_sub _ _ hx ':' (by decide)) hc
  simp [schemeAt, h1, h2]

lemma stripFirstScheme_eq_self_of_good (l : List Char) (h : ∀ c ∈ l, goodChar c = true) :
    stripFirstScheme l = l := by
  induction l with
  | nil => rfl
  | cons c cs ih =>
    have hn := schemeAt_eq_none_of_good (c :: cs) h
    simp only [stripFirstScheme, hn]
    rw [ih (fun a ha => h a (List.mem_cons_of_mem _ ha))]

lemma sanitizeChar_eq_self_of_good (c : Char) (h : goodChar c = true) : sanitizeChar c = c := by
  have h' := (goodChar_iff c).mp h
  by_cases ha : isAlnumCh c = true
  · unfold sanitizeChar
    rw [if_pos ha]
  · have h95 : c.toNat = 95 := by
      rw [isAlnumCh_iff] at ha
      omega
    have hc : c = '_' := by
      rw [← Char.ofNat_toNat c, h95]
    unfold sanitizeChar
    rw [if_neg ha, hc]

lemma toLower_eq_self_of_good (c : Char) (h : goodChar c = true) : Char.toLower c = c := by
  have h' := (goodChar_iff c).mp h
  unfold Char.toLower
  rw [if_neg]
  omega

lemma sanitizeFilename_fixed (l : List Char) (hg : ∀ c ∈ l, goodChar c = true)
    (hlen : l.length ≤ 50) : sanitizeFilename l = l := by
  have h2 : List.map sanitizeChar l = List.map id l :=
    List.map_congr_left (fun a ha => sanitizeChar_eq_self_of_good a (hg a ha))
  have h3 : List.map Char.toLower l = List.map id l :=
    List.map_congr_left (fun a ha => toLower_eq_self_of_good a (hg a ha))
  unfold sanitizeFilename
  rw [stripFirstScheme_eq_self_of_good l hg, h2, List.map_id, h3, List.map_id,
    List.take_of_length_le hlen]

lemma schemeFree_cons (c : Char) (cs : List Char) (h : schemeFree (c :: cs) = true) :
    schemeAt (c :: cs) = none ∧ schemeFree cs = true := by
  simp only [schemeFree, Bool.and_eq_true, Option.isNone_iff_eq_none] at h
  exact h

lemma stripFirstScheme_eq_self_of_schemeFree (l : List Char) (h : schemeFree l = true) :
    stripFirstScheme l = l := by
  induction l with
  | nil => rfl
  | cons c cs ih =>
    obtain ⟨h1, h2⟩ := schemeFree_cons c cs h
    simp only [stripFirstScheme, h1]
    rw [ih h2]

lemma stripLeadingScheme_eq_self_of_schemeFree (l : List Char) (h : schemeFree l = true) :
    stripLeadingScheme l = l := by
  cases l with
  | nil => rfl
  | cons c cs =>
    obtain ⟨h1, _⟩ := schemeFree_cons c cs h
    simp [stripLeadingScheme, h1]

/-! ## Claims about the sanitizer -/

/-- C2, counterexample: the claim reads step 1 as stripping a LEADING scheme,
but the source regex `/https?:\/\//` is unanchored and removes the first
occurrence anywhere. On `"ahttp://b"` the code yields `"ab"` while the
claimed four-step algorithm yields `"ahttp___b"`. -/
theorem sanitizeFilename_leading_strip_counterexample :
    sanitizeFilename ("ahttp://b".toList) ≠ sanitizeFilenameSpec ("ahttp://b".toList) := by
  decide

/-- C2 (amended): `sanitizeFilename` strips the FIRST occurrence of `http://`
or `https://` anywhere in the string (the replace is unanchored); this
coincides with the specification's leading-scheme four-step algorithm exactly
on inputs that either contain no occurrence of the scheme pattern or begin
with one, and on the spec's example the result is `example_com_path_q_1`. -/
theorem sanitizeFilename_four_step_algorithm :
    (∀ s : List Char, schemeFree s = true ∨ (schemeAt s).isSome = true →
      sanitizeFilename s = sanitizeFilenameSpec s) ∧
    sanitizeFilename ("https://Example.com/Path?q=1".toList) =
      "example_com_path_q_1".toList := by
  constructor
  · intro s hs
    have hstrip : stripFirstScheme s = stripLeadingScheme s := by
      rcases hs with hfree | hmatch
      · rw [stripFirstScheme_eq_self_of_schemeFree s hfree,
          stripLeadingScheme_eq_self_of_schemeFree s hfree]
      · cases s with
        | nil => exact absurd hmatch (by decide)
        | cons c cs =>
          rw [Option.isSome_iff_exists] at hmatch
          obtain ⟨n, hn⟩ := hmatch
          simp only [stripFirstScheme, stripLeadingScheme, hn]
    unfold sanitizeFilename sanitizeFilenameSpec
    rw [hstrip]
  · decide

/-- C2 witness: the conditional part of the amended claim, instantiated at the
specification's own example (whose first scheme occurrence is leading). -/
theorem sanitizeFilename_four_step_algorithm_witness :
    sanitizeFilename ("https://Example.com/Path?q=1".toList) =
      sanitizeFilenameSpec ("https://Example.com/Path?q=1".toList) :=
  sanitizeFilename_four_step_algorithm.1 ("https://Example.com/Path?q=1".toList)
    (Or.inr (by decide))

/-- C3: `sanitizeFilename` is a total Lean function (hence pure and
deterministic); for every input its output has length at most 50 and every
output character lies in the class `[a-z0-9_]`, i.e. the output matches
the anchored pattern of lowercase alphanumerics and underscores. -/
theorem sanitizeFilename_bounded_and_charset (s : List Char) :
    (sanitizeFilename s).length ≤ 50 ∧ ∀ c ∈ sanitizeFilename s, goodChar c = true :=
  ⟨sanitizeFilename_length_le s, sanitizeFilename_chars_good s⟩

/-- C3 witness: the bound and the character-class property evaluated on the
specification's example input. -/
theorem sanitizeFilename_bounded_and_charset_witness :
    (sanitizeFilename ("https://Example.com/Path?q=1".toList)).length ≤ 50 ∧
    goodChar 'e' = true :=
  ⟨(sanitizeFilename_bounded_and_charset ("https://Example.com/Path?q=1".toList)).1,
   (sanitizeFilename_bounded_and_charset ("https://Example.com/Path?q=1".toList)).2
     'e' (by decide)⟩

/-- C9: `sanitizeFilename` is idempotent, because its output contains no
scheme occurrence (no `:` or `/` survives), only characters the replacement
and lowercasing leave unchanged, and at most 50 characters. -/
theorem sanitizeFilename_idempotent (s : List Char) :
    sanitizeFilename (sanitizeFilename s) = sanitizeFilename s :=
  sanitizeFilename_fixed (sanitizeFilename s) (sanitizeFilename_chars_good s)
    (sanitizeFilename_length_le s)

/-! ## Lemmas about `generatePDF` -/

lemma generatePDF_closes_of_launch_ok (eng : EngineBehavior) (u : String) (opts : PdfOpts)
    (h : eng.launch = Except.ok ()) : (generatePDF eng u opts).closes = 1 := by
  unfold generatePDF tryBody
  rw [h]
  cases eng.newPage <;> cases eng.setViewport <;> cases eng.setUserAgent <;>
    cases eng.goto u <;> cases eng.waitSettle <;>
    cases eng.pdfExport (mergeOptions opts) <;> rfl

lemma generatePDF_launch_fail (eng : EngineBehavior) (u : String) (opts : PdfOpts)
    (e : String) (h : eng.launch = Except.error e) :
    (generatePDF eng u opts).closes = 0 ∧
    (generatePDF eng u opts).result = Except.error e := by
  unfold generatePDF tryBody
  rw [h]
  exact ⟨rfl, rfl⟩

lemma generatePDF_exportOptions_eq (eng : EngineBehavior) (u : String) (opts : PdfOpts)
    (m : PdfOpts) (h : (generatePDF eng u opts).exportOptions = some m) :
    m = mergeOptions opts := by
  revert h
  unfold generatePDF tryBody
  cases eng.launch <;> cases eng.newPage <;> cases eng.setViewport <;>
    cases eng.setUserAgent <;> cases eng.goto u <;> cases eng.waitSettle <;>
    cases eng.pdfExport (mergeOptions opts) <;> intro h <;> simp at h <;> exact h.symm

lemma handlePost_render_error (parse : String → Except String Unit) (eng : EngineBehavior)
    (now u : String) (f : Option String) (optsF : Option PdfOpts) (e : String)
    (hu : u ≠ "") (hv : isValidUrl parse u = true)
    (he : (generatePDF eng u (effOptions optsF)).result = Except.error e) :
    handlePost parse eng now (some u) f optsF =
      ⟨⟨500, [], RespBody.json (renderFailureBody e now)⟩, [(u, effOptions optsF)]⟩ := by
  unfold handlePost
  dsimp only
  rw [if_neg hu, if_pos hv, he]

/-- C1: if the launch succeeded, `generatePDF` closes the browser exactly once
on every exit path (success, or a failure of any later step); if the launch
itself failed, no close is attempted and the launch error propagates; and any
error propagated out of `generatePDF` makes the POST endpoint respond 500 with
a JSON body whose `error`, `message` and `timestamp` fields are populated. -/
theorem generatePDF_session_lifecycle (parse : String → Except String Unit)
    (eng : EngineBehavior) (now u : String) (f : Option String) (optsF : Option PdfOpts) :
    (eng.launch = Except.ok () → (generatePDF eng u (effOptions optsF)).closes = 1) ∧
    (∀ e, eng.launch = Except.error e →
      (generatePDF eng u (effOptions optsF)).closes = 0 ∧
      (generatePDF eng u (effOptions optsF)).result = Except.error e) ∧
    (∀ e, (generatePDF eng u (effOptions optsF)).result = Except.error e →
      u ≠ "" → isValidUrl parse u = true →
      (handlePost parse eng now (some u) f optsF).resp.status = 500 ∧
      (handlePost parse eng now (some u) f optsF).resp.body =
        RespBody.json (renderFailureBody e now) ∧
      List.lookup "error" (renderFailureBody e now) =
        some (JVal.str "Failed to generate PDF") ∧
      List.lookup "message" (renderFailureBody e now) = some (JVal.str e) ∧
      List.lookup "timestamp" (renderFailureBody e now) = some (JVal.str now)) := by
  refine ⟨fun h => generatePDF_closes_of_launch_ok eng u _ h,
    fun e h => generatePDF_launch_fail eng u _ e h,
    fun e he hu hv => ?_⟩
  rw [handlePost_render_error parse eng now u f optsF e hu hv he]
  exact ⟨rfl, rfl, rfl, rfl, rfl⟩

/-- C1 witness: a navigation failure still closes the launched session exactly
once and surfaces as a 500; a launch failure performs no close. -/
theorem generatePDF_session_lifecycle_witness :
    (generatePDF engNavFail "http://x" (effOptions none)).closes = 1 ∧
    (generatePDF engLaunchFail "http://x" (effOptions none)).closes = 0 ∧
    (handlePost pOk engNavFail "t0" (some "http://x") none none).resp.status = 500 := by
  refine ⟨?_, ?_, ?_⟩
  · exact (generatePDF_session_lifecycle pOk engNavFail "t0" "http://x" none none).1 rfl
  · exact ((generatePDF_session_lifecycle pOk engLaunchFail "t0" "http://x" none none).2.1
      "Failed to launch the browser process" rfl).1
  · exact ((generatePDF_session_lifecycle pOk engNavFail "t0" "http://x" none none).2.2
      "Navigation timeout of 30000 ms exceeded" rfl (by decide) rfl).1

/-- C4: whenever the export step is reached, the options handed to `page.pdf`
are the key-by-key spread of the caller's mapping over the defaults: caller
keys (recognized or not) pass through and override, missing keys keep the
defaults, and the defaults are exactly the ones of src/app.js lines 75-86. -/
theorem pdfExport_options_merge (eng : EngineBehavior) (u : String) (opts : PdfOpts)
    (m : PdfOpts) (h : (generatePDF eng u opts).exportOptions = some m) :
    (∀ k v, opts k = some v → m k = some v) ∧
    (∀ k, opts k = none → m k = defaultPdfOptions k) ∧
    defaultPdfOptions "format" = some (JVal.str "A4") ∧
    defaultPdfOptions "printBackground" = some (JVal.bool true) ∧
    defaultPdfOptions "margin" =
      some (JVal.obj [("top", "20px"), ("right", "20px"), ("bottom", "20px"), ("left", "20px")]) ∧
    defaultPdfOptions "headerTemplate" =
      some (JVal.str "<div style=\"font-size: 10px; margin: auto;\"></div>") ∧
    defaultPdfOptions "footerTemplate" =
      some (JVal.str "<div style=\"font-size: 10px; margin: auto; color: #666;\"><span class=\"pageNumber\"></span> / <span class=\"totalPages\"></span></div>") := by
  obtain rfl := generatePDF_exportOptions_eq eng u opts m h
  refine ⟨?_, ?_, rfl, rfl, rfl, rfl, rfl⟩
  · intro k v hk
    unfold mergeOptions
    rw [hk]
  · intro k hk
    unfold mergeOptions
    rw [hk]

/-- A caller options object overriding `format` and adding the engine option
`landscape`, which the defaults do not mention. -/
def callerOptsA3 : PdfOpts := fun k =>
  if k = "format" then some (JVal.str "A3")
  else if k = "landscape" then some (JVal.bool true)
  else none

/-- C4 witness: with a caller mapping overriding `format` and passing the
unrecognized key `landscape`, the merged export options override `format`,
pass `landscape` through, and keep the `printBackground` default. -/
theorem pdfExport_options_merge_witness :
    mergeOptions callerOptsA3 "format" = some (JVal.str "A3") ∧
    mergeOptions callerOptsA3 "landscape" = some (JVal.bool true) ∧
    mergeOptions callerOptsA3 "printBackground" = some (JVal.bool true) := by
  have H := pdfExport_options_merge engAllOk "http://x" callerOptsA3
    (mergeOptions callerOptsA3) rfl
  exact ⟨H.1 "format" _ rfl, H.1 "landscape" _ rfl,
    (H.2.1 "printBackground" rfl).trans H.2.2.2.1⟩

/-! ## Lemmas about the endpoint layer -/

lemma handleGetCore_adapterCalls (parse : String → Except String Unit) (eng : EngineBehavior)
    (now : String) (url f : Option String) :
    (handleGetCore parse eng now url f).adapterCalls =
      match url with
      | none => []
      | some u => if u = "" then [] else if isValidUrl parse u then [(u, emptyOpts)] else [] := by
  cases url with
  | none => rfl
  | some u =>
    by_cases h1 : u = ""
    · simp [handleGetCore, h1]
    · by_cases h2 : isValidUrl parse u = true
      · cases hr : (generatePDF eng u emptyOpts).result <;>
          simp [handleGetCore, h1, h2, hr]
      · simp [handleGetCore, h1, h2]

/-- C5: two GET requests whose query strings agree on `url` (but may disagree
arbitrarily elsewhere, including on parameters that resemble render options)
produce identical adapter invocations, and every option mapping the GET route
ever passes to the adapter is the empty one, so only the defaults apply. -/
theorem get_query_noninterference (parse : String → Except String Unit) (eng : EngineBehavior)
    (now : String) (q1 q2 : String → Option String) (h : q1 "url" = q2 "url") :
    (handleGet parse eng now q1).adapterCalls = (handleGet parse eng now q2).adapterCalls ∧
    ∀ c ∈ (handleGet parse eng now q1).adapterCalls, c.2 = emptyOpts := by
  constructor
  · unfold handleGet
    rw [handleGetCore_adapterCalls, handleGetCore_adapterCalls, h]
  · intro c hc
    unfold handleGet at hc
    rw [handleGetCore_adapterCalls] at hc
    cases hq : q1 "url" with
    | none =>
      rw [hq] at hc
      simp at hc
    | some u =>
      rw [hq] at hc
      by_cases h1 : u = ""
      · simp [h1] at hc
      · by_cases h2 : isValidUrl parse u = true
        · simp [h1, h2] at hc
          rw [hc]
        · simp [h1, h2] at hc

/-- A query with `url` plus extra parameters resembling render options. -/
def qWithExtras : String → Option String := fun k =>
  if k = "url" then some "http://x"
  else if k = "format" then some "A3"
  else if k = "landscape" then some "true"
  else none

/-- A query carrying only `url`. -/
def qUrlOnly : String → Option String := fun k =>
  if k = "url" then some "http://x" else none

/-- C5 witness: a GET query with option-like extra parameters invokes the
adapter exactly as the bare query does, with the empty options object. -/
theorem get_query_noninterference_witness :
    (handleGet pOk engAllOk "t0" qWithExtras).adapterCalls =
      (handleGet pOk engAllOk "t0" qUrlOnly).adapterCalls ∧
    ("http://x", emptyOpts).2 = emptyOpts :=
  ⟨(get_query_noninterference pOk engAllOk "t0" qWithExtras qUrlOnly rfl).1,
   (get_query_noninterference pOk engAllOk "t0" qWithExtras qUrlOnly rfl).2
     ("http://x", emptyOpts) (by rw [(get_query_noninterference pOk engAllOk "t0"
        qWithExtras qUrlOnly rfl).1]; exact List.mem_singleton.mpr rfl)⟩

/-- C6: `isValidUrl` returns `true` exactly when the (external, abstracted)
WHATWG parse succeeds, and maps every parse failure to `false`; being a total
Lean function of the input string, it returns for every input without raising. -/
theorem isValidUrl_iff_parse (parse : String → Except String Unit) (s : String) :
    (isValidUrl parse s = true ↔ parse s = Except.ok ()) ∧
    (∀ e, parse s = Except.error e → isValidUrl parse s = false) := by
  cases h : parse s with
  | ok u =>
    cases u
    constructor
    · simp [isValidUrl, h]
    · intro e he
      simp at he
  | error e =>
    constructor
    · simp [isValidUrl, h]
    · intro e' _
      simp [isValidUrl, h]

/-- C6 witness: a successful parse yields `true`, a failing parse `false`. -/
theorem isValidUrl_iff_parse_witness :
    isValidUrl pOk "https://example.com" = true ∧ isValidUrl pBad "not-a-url" = false :=
  ⟨(isValidUrl_iff_parse pOk "https://example.com").1.mpr rfl,
   (isValidUrl_iff_parse pBad "not-a-url").2 "Invalid URL" rfl⟩

lemma handlePost_invalid (parse : String → Except String Unit) (eng : EngineBehavior)
    (now u : String) (f : Option String) (optsF : Option PdfOpts) (e : String)
    (hu : u ≠ "") (he : parse u = Except.error e) :
    handlePost parse eng now (some u) f optsF =
      ⟨⟨400, [], RespBody.json invalidUrlBody⟩, []⟩ := by
  have hv : isValidUrl parse u = false := by
    unfold isValidUrl
    rw [he]
  unfold handlePost
  dsimp only
  rw [if_neg hu]
  simp [hv]

lemma handleGetCore_invalid (parse : String → Except String Unit) (eng : EngineBehavior)
    (now u : String) (f : Option String) (e : String)
    (hu : u ≠ "") (he : parse u = Except.error e) :
    handleGetCore parse eng now (some u) f =
      ⟨⟨400, [], RespBody.json invalidUrlBody⟩, []⟩ := by
  have hv : isValidUrl parse u = false := by
    unfold isValidUrl
    rw [he]
  unfold handleGetCore
  dsimp only
  rw [if_neg hu]
  simp [hv]

/-- C7 counterexample: the claim fails at two concrete inputs. First, on the
GET route a missing `url` produces the 400 body whose error text is
`URL parameter is required`, which does not contain the substring
`URL is required` the claim asserts for both routes. Second, a
present-but-EMPTY url fails URL validation (Node's `new URL("")` throws, here
the rejecting oracle `pBad`), yet the POST route answers it with the
missing-url body `URL is required` rather than `Invalid URL format`, because
the truthiness test `!url` classifies the empty string as missing before the
validator is ever consulted. -/
theorem url_validation_claim_counterexample :
    (handleGet pOk engAllOk "t0" (fun _ => none)).resp.status = 400 ∧
    (handleGet pOk engAllOk "t0" (fun _ => none)).resp.body =
      RespBody.json getMissingUrlBody ∧
    List.lookup "error" getMissingUrlBody = some (JVal.str "URL parameter is required") ∧
    hasSub ("URL is required".toList) ("URL parameter is required".toList) = false ∧
    isValidUrl pBad "" = false ∧
    (handlePost pBad engAllOk "t0" (some "") none none).resp.status = 400 ∧
    (handlePost pBad engAllOk "t0" (some "") none none).resp.body =
      RespBody.json postMissingUrlBody ∧
    List.lookup "error" postMissingUrlBody = some (JVal.str "URL is required") ∧
    postMissingUrlBody ≠ invalidUrlBody :=
  ⟨rfl, rfl, rfl, by decide, rfl, rfl, rfl, rfl, by decide⟩

/-- C7 (amended): on both routes a missing url — or an empty one, which the
code's truthiness test classifies as missing before the validator is consulted
— is rejected with 400 and the route's missing-url body before the render
adapter is ever invoked (the adapter call trace is empty, so no browser
session is acquired), with error `URL is required` on POST but
`URL parameter is required` on GET; a present NON-EMPTY url whose parse fails
is rejected with 400 and error `Invalid URL format` on both routes, likewise
before any adapter call. -/
theorem validation_before_adapter (parse : String → Except String Unit) (eng : EngineBehavior)
    (now : String) (f : Option String) (optsF : Option PdfOpts) :
    ((handlePost parse eng now none f optsF).resp.status = 400 ∧
      (handlePost parse eng now none f optsF).adapterCalls = [] ∧
      (handlePost parse eng now none f optsF).resp.body = RespBody.json postMissingUrlBody) ∧
    ((handlePost parse eng now (some "") f optsF).resp.status = 400 ∧
      (handlePost parse eng now (some "") f optsF).adapterCalls = [] ∧
      (handlePost parse eng now (some "") f optsF).resp.body =
        RespBody.json postMissingUrlBody) ∧
    (∀ u e, u ≠ "" → parse u = Except.error e →
      (handlePost parse eng now (some u) f optsF).resp.status = 400 ∧
      (handlePost parse eng now (some u) f optsF).adapterCalls = [] ∧
      (handlePost parse eng now (some u) f optsF).resp.body = RespBody.json invalidUrlBody) ∧
    (∀ q : String → Option String, q "url" = none →
      (handleGet parse eng now q).resp.status = 400 ∧
      (handleGet parse eng now q).adapterCalls = [] ∧
      (handleGet parse eng now q).resp.body = RespBody.json getMissingUrlBody) ∧
    (∀ q : String → Option String, q "url" = some "" →
      (handleGet parse eng now q).resp.status = 400 ∧
      (handleGet parse eng now q).adapterCalls = [] ∧
      (handleGet parse eng now q).resp.body = RespBody.json getMissingUrlBody) ∧
    (∀ (q : String → Option String) (u e : String), q "url" = some u → u ≠ "" →
      parse u = Except.error e →
      (handleGet parse eng now q).resp.status = 400 ∧
      (handleGet parse eng now q).adapterCalls = [] ∧
      (handleGet parse eng now q).resp.body = RespBody.json invalidUrlBody) := by
  refine ⟨⟨rfl, rfl, rfl⟩, ⟨rfl, rfl, rfl⟩, ?_, ?_, ?_, ?_⟩
  · intro u e hu he
    rw [handlePost_invalid parse eng now u f optsF e hu he]
    exact ⟨rfl, rfl, rfl⟩
  · intro q hq
    unfold handleGet
    rw [hq]
    exact ⟨rfl, rfl, rfl⟩
  · intro q hq
    unfold handleGet
    rw [hq]
    exact ⟨rfl, rfl, rfl⟩
  · intro q u e hq hu he
    unfold handleGet
    rw [hq, handleGetCore_invalid parse eng now u (q "filename") e hu he]
    exact ⟨rfl, rfl, rfl⟩

/-- A query whose `url` is present but not parseable. -/
def qNotAUrl : String → Option String := fun k =>
  if k = "url" then some "not-a-url" else none

/-- A query whose `url` parameter is present but empty (`?url=`). -/
def qEmptyUrl : String → Option String := fun k =>
  if k = "url" then some "" else none

/-- C7 witness: concrete missing-url, empty-url and invalid-url requests on
both routes are rejected with 400 and an empty adapter trace. -/
theorem validation_before_adapter_witness :
    (handlePost pBad engAllOk "t0" none none none).resp.status = 400 ∧
    (handlePost pBad engAllOk "t0" (some "not-a-url") none none).resp.status = 400 ∧
    (handlePost pBad engAllOk "t0" (some "not-a-url") none none).adapterCalls = [] ∧
    (handleGet pBad engAllOk "t0" (fun _ => none)).resp.status = 400 ∧
    (handleGet pBad engAllOk "t0" qEmptyUrl).resp.status = 400 ∧
    (handleGet pBad engAllOk "t0" qEmptyUrl).adapterCalls = [] ∧
    (handleGet pBad engAllOk "t0" qNotAUrl).resp.status = 400 ∧
    (handleGet pBad engAllOk "t0" qNotAUrl).adapterCalls = [] := by
  have H := validation_before_adapter pBad engAllOk "t0" none none
  refine ⟨H.1.1, ?_, ?_, (H.2.2.2.1 (fun _ => none) rfl).1, ?_, ?_, ?_, ?_⟩
  · exact (H.2.2.1 "not-a-url" "Invalid URL" (by decide) rfl).1
  · exact (H.2.2.1 "not-a-url" "Invalid URL" (by decide) rfl).2.1
  · exact (H.2.2.2.2.1 qEmptyUrl rfl).1
  · exact (H.2.2.2.2.1 qEmptyUrl rfl).2.1
  · exact (H.2.2.2.2.2 qNotAUrl "not-a-url" "Invalid URL" rfl (by decide) rfl).1
  · exact (H.2.2.2.2.2 qNotAUrl "not-a-url" "Invalid URL" rfl (by decide) rfl).2.1

lemma handlePost_success (parse : String → Except String Unit) (eng : EngineBehavior)
    (now u : String) (f : Option String) (optsF : Option PdfOpts) (pdf : List Nat)
    (hu : u ≠ "") (hv : isValidUrl parse u = true)
    (hr : (generatePDF eng u (effOptions optsF)).result = Except.ok pdf) :
    handlePost parse eng now (some u) f optsF =
      ⟨pdfSuccessResponse pdf (resolveName f u), [(u, effOptions optsF)]⟩ := by
  unfold handlePost
  dsimp only
  rw [if_neg hu, if_pos hv, hr]

lemma handleGetCore_success (parse : String → Except String Unit) (eng : EngineBehavior)
    (now u : String) (f : Option String) (pdf : List Nat)
    (hu : u ≠ "") (hv : isValidUrl parse u = true)
    (hr : (generatePDF eng u emptyOpts).result = Except.ok pdf) :
    handleGetCore parse eng now (some u) f =
      ⟨pdfSuccessResponse pdf (resolveName f u), [(u, emptyOpts)]⟩ := by
  unfold handleGetCore
  dsimp only
  rw [if_neg hu, if_pos hv, hr]

/-- C8 counterexample: a caller-supplied filename that is present but EMPTY is
falsy in the `filename || fallback` test, so the response does not carry the
supplied name — it carries the sanitized fallback `x.pdf` instead. -/
theorem present_empty_filename_counterexample :
    (handlePost pOk engAllOk "t0" (some "http://x") (some "") none).resp.headers =
      [("Content-Type", "application/pdf"),
       ("Content-Disposition", "attachment; filename=\"x.pdf\""),
       ("Content-Length", "4")] ∧
    ("attachment; filename=\"x.pdf\"" : String) ≠ contentDispositionValue "" :=
  ⟨rfl, by decide⟩

/-- C8 (amended): on success the resolved download filename is the
caller-supplied filename when it is present AND non-empty (the code tests
truthiness, so a present-but-empty filename falls back), and otherwise
`sanitizeFilename(url) + ".pdf"`; on both routes the response carries this
name in the Content-Disposition attachment header together with Content-Type
`application/pdf` and Content-Length equal to the PDF byte length. -/
theorem success_filename_and_headers (parse : String → Except String Unit)
    (eng : EngineBehavior) (now u : String) (f : Option String)
    (optsF : Option PdfOpts) (pdf : List Nat)
    (hu : u ≠ "") (hv : isValidUrl parse u = true)
    (hr : (generatePDF eng u (effOptions optsF)).result = Except.ok pdf) :
    (handlePost parse eng now (some u) f optsF).resp =
      ⟨200,
       [("Content-Type", "application/pdf"),
        ("Content-Disposition", contentDispositionValue (resolveName f u)),
        ("Content-Length", Nat.repr pdf.length)],
       RespBody.pdfBytes pdf⟩ ∧
    (∀ s, f = some s → s ≠ "" → resolveName f u = s) ∧
    (f = none ∨ f = some "" → resolveName f u = sanStr u ++ ".pdf") ∧
    (∀ q : String → Option String, q "url" = some u → q "filename" = f →
      (generatePDF eng u emptyOpts).result = Except.ok pdf →
      (handleGet parse eng now q).resp =
        ⟨200,
         [("Content-Type", "application/pdf"),
          ("Content-Disposition", contentDispositionValue (resolveName f u)),
          ("Content-Length", Nat.repr pdf.length)],
         RespBody.pdfBytes pdf⟩) := by
  refine ⟨?_, ?_, ?_, ?_⟩
  · rw [handlePost_success parse eng now u f optsF pdf hu hv hr]
    rfl
  · rintro s rfl hs
    simp [resolveName, hs]
  · rintro (rfl | rfl) <;> simp [resolveName]
  · intro q hq hf hr2
    unfold handleGet
    rw [hq, hf, handleGetCore_success parse eng now u f pdf hu hv hr2]
    rfl

/-- C8 witness: a POST with a non-empty filename carries exactly that name and
the byte length of the generated PDF. -/
theorem success_filename_and_headers_witness :
    (handlePost pOk engAllOk "t0" (some "http://x") (some "report.pdf") none).resp =
      ⟨200,
       [("Content-Type", "application/pdf"),
        ("Content-Disposition", "attachment; filename=\"report.pdf\""),
        ("Content-Length", "4")],
       RespBody.pdfBytes [37, 80, 68, 70]⟩ := by
  have H := success_filename_and_headers pOk engAllOk "t0" "http://x" (some "report.pdf")
    none [37, 80, 68, 70] (by decide) rfl rfl
  rw [H.1, H.2.1 "report.pdf" rfl (by decide)]
  rfl

/-- A GET query supplying an empty `filename=` parameter. -/
def qEmptyFilename : String → Option String := fun k =>
  if k = "url" then some "http://y" else if k = "filename" then some "" else none

/-- C10 counterexample: a supplied filename is not always embedded verbatim —
the empty supplied filename is falsy, so the header embeds the sanitized
fallback name `y.pdf` rather than the supplied empty name. -/
theorem content_disposition_verbatim_counterexample :
    List.lookup "Content-Disposition"
        (handleGet pOk engAllOk "t0" qEmptyFilename).resp.headers =
      some "attachment; filename=\"y.pdf\"" ∧
    ("attachment; filename=\"y.pdf\"" : String) ≠ contentDispositionValue "" :=
  ⟨rfl, by decide⟩

/-- C10 (amended): every present NON-EMPTY caller-supplied filename is
embedded verbatim, unescaped and unsanitized, into the Content-Disposition
value `attachment; filename="<name>"`; a name containing a double quote hence
yields a malformed quoted value; the sanitizer touches only the fallback name
derived from the url, and a present-but-empty filename falls back like an
absent one. -/
theorem content_disposition_verbatim (parse : String → Except String Unit)
    (eng : EngineBehavior) (now u : String) (optsF : Option PdfOpts)
    (pdf : List Nat) (f : String)
    (hf : f ≠ "") (hu : u ≠ "") (hv : isValidUrl parse u = true)
    (hr : (generatePDF eng u (effOptions optsF)).result = Except.ok pdf) :
    List.lookup "Content-Disposition"
        (handlePost parse eng now (some u) (some f) optsF).resp.headers =
      some ("attachment; filename=\"" ++ f ++ "\"") ∧
    List.lookup "Content-Disposition"
        (handlePost parse eng now (some u) none optsF).resp.headers =
      some ("attachment; filename=\"" ++ (sanStr u ++ ".pdf") ++ "\"") ∧
    wellQuotedCD (contentDispositionValue "a\"b").toList = false := by
  have hn : resolveName (some f) u = f := by
    simp [resolveName, hf]
  refine ⟨?_, ?_, by decide⟩
  · rw [handlePost_success parse eng now u (some f) optsF pdf hu hv hr]
    simp [pdfSuccessResponse, hn, contentDispositionValue, List.lookup]
  · rw [handlePost_success parse eng now u none optsF pdf hu hv hr]
    simp [pdfSuccessResponse, resolveName, contentDispositionValue, List.lookup]

/-- C10 witness: the filename `a"b` is embedded verbatim, quote and all. -/
theorem content_disposition_verbatim_witness :
    List.lookup "Content-Disposition"
        (handlePost pOk engAllOk "t0" (some "http://x") (some "a\"b") none).resp.headers =
      some "attachment; filename=\"a\"b\"" :=
  ((content_disposition_verbatim pOk engAllOk "t0" "http://x" none [37, 80, 68, 70]
    "a\"b" (by decide) (by decide) rfl rfl).1).trans (by decide)

end WebToPdf
